import Mathlib

/-!
Shallow embedding of the hewenyu/deepllm trip-planning core
(internal/data store and loader, dining / accommodation / weather agents,
and the coordinator TripPlanner), translated from the Go sources.

Modelling conventions:
* Go `float64` values (prices, budgets, scores, temperatures, wind speeds,
  coordinates) are embedded as `ℚ`, keeping every comparison decidable and
  every definition executable.
* Go `time.Time` is embedded as an `Int` count of minutes; `Sub(..).Hours()/24`
  truncated to `int` becomes `Int.tdiv _ 1440`, `AddDate(0,0,i)` becomes
  `+ 1440*i`, `Add(12*time.Hour)` becomes `+ 720`, and
  `Format("2006-01-02")` becomes the decimal string of the day index
  `Int.fdiv _ 1440` (a monotone injective rendering of the calendar date).
* The Haversine distance calls `math.Sin`/`math.Cos`/`math.Atan2`, which are
  transcendental; every claim under verification is independent of the
  numeric distance values, so the distance function is passed as an explicit
  parameter `dist : Location → Location → ℚ` to the store queries and agents,
  and the theorems hold for every such function (in particular the real one).
* `sort.Slice(recs, less)` guarantees exactly that the resulting permutation
  is sorted with respect to the comparator; it is embedded as
  `List.insertionSort (fun a b => less b a = false)`, a sorted permutation
  with respect to the same comparator.
* Go runtime panics (nil-pointer dereferences) and returned `error` values
  are embedded as an `Except GoErr` result with separate constructors.
* The module's `go.mod` declares `go 1.21`, so `for _, r := range ...` uses
  one loop variable shared across iterations. The two `Recommend` loops
  store `&r` / `&h` of that variable into every recommendation, so after
  the loop every stored POI pointer dereferences to the LAST element of the
  ranged-over slice; the embedding therefore sets the `restaurant` / `hotel`
  field of every recommendation to that last element, while the fields
  computed by value (distance, reasons, notes, room types, tips) use the
  per-iteration element.
-/

attribute [local semireducible] Rat.add Rat.sub Rat.mul Rat.inv Rat.ofScientific

namespace DeepLLM

/-- GoErr distinguishes an ordinary returned Go `error` from a runtime panic
(nil-pointer dereference) that aborts execution. -/
inductive GoErr where
  | errMsg : String → GoErr
  | runtimePanic : String → GoErr
deriving DecidableEq

/-- Location mirrors `data.Location`; the multi-agent variant carries a
display name, the tourism variant leaves it empty. -/
structure Location where
  latitude : ℚ
  longitude : ℚ
  name : String := ""
deriving DecidableEq

/-- PriceRange mirrors the inline `PriceRange` structs of `data.Restaurant`
and `data.Hotel` (the restaurant one has no `Notes`; it stays `""`). -/
structure PriceRange where
  min : ℚ
  max : ℚ
  currency : String := ""
  level : String := ""
  notes : String := ""
deriving DecidableEq

/-- BreakTime mirrors the optional `BreakTime` struct of `data.Hours`
(`End` is rendered `stop`, since `end` is reserved in Lean). -/
structure BreakTime where
  start : String := ""
  stop : String := ""
deriving DecidableEq

/-- Hours mirrors `data.Hours` (`End` rendered as `stop`). -/
structure Hours where
  start : String := ""
  stop : String := ""
  notes : String := ""
  breakTime : Option BreakTime := none
deriving DecidableEq

/-- Contact mirrors `data.Contact`. -/
structure Contact where
  phone : String := ""
  address : String := ""
  email : String := ""
deriving DecidableEq

/-- Room mirrors `data.Room`. -/
structure Room where
  type : String := ""
  sizeSqm : ℚ := 0
  price : ℚ
  features : List String := []
deriving DecidableEq

/-- Transport mirrors `data.Transport` with the inline `FromAirport` struct
flattened into two fields. -/
structure Transport where
  fromAirportTaxiTime : String := ""
  fromAirportDistanceKm : ℚ := 0
  nearbyStations : List String := []
deriving DecidableEq

/-- District mirrors `data.District`. -/
structure District where
  id : String := ""
  name : String := ""
  description : String := ""
  coordinates : Location := {latitude := 0, longitude := 0}
  areaKm2 : ℚ := 0
  transportation : List String := []
  landmarks : List String := []
deriving DecidableEq

/-- Attraction mirrors `data.Attraction` (its `Price` struct flattened to the
amount, `RecommendedTime` flattened). -/
structure Attraction where
  id : String := ""
  name : String := ""
  districtID : String := ""
  description : String := ""
  coordinates : Location := {latitude := 0, longitude := 0}
  priceAmount : ℚ := 0
  openingHours : Hours := {}
  recommendedHours : Int := 0
  bestTimes : List String := []
  highlights : List String := []
  tags : List String := []
deriving DecidableEq

/-- Restaurant mirrors `data.Restaurant`. -/
structure Restaurant where
  id : String := ""
  name : String := ""
  districtID : String := ""
  description : String := ""
  coordinates : Location := {latitude := 0, longitude := 0}
  cuisineType : String := ""
  priceRange : PriceRange
  openingHours : Hours := {}
  signatureDishes : List String := []
  features : List String := []
  reservationNeeded : Bool := false
  contact : Contact := {}
deriving DecidableEq

/-- Hotel mirrors `data.Hotel`. -/
structure Hotel where
  id : String := ""
  name : String := ""
  districtID : String := ""
  description : String := ""
  category : String := ""
  coordinates : Location := {latitude := 0, longitude := 0}
  priceRange : PriceRange
  rooms : List Room := []
  amenities : List String := []
  transport : Transport := {}
  contact : Contact := {}
deriving DecidableEq

/-- WeatherCondition mirrors the inline `Weather` struct of
`data.DailyForecast`. -/
structure WeatherCondition where
  day : String := ""
  night : String := ""
deriving DecidableEq

/-- RangeQ mirrors `data.Range` and `data.Temperature` (max, min, unit). -/
structure RangeQ where
  max : ℚ := 0
  min : ℚ := 0
  unit : String := ""
deriving DecidableEq

/-- Wind mirrors `data.Wind`. -/
structure Wind where
  direction : String := ""
  speed : RangeQ := {}
deriving DecidableEq

/-- AirQuality mirrors `data.AirQuality`. -/
structure AirQuality where
  aqi : Int := 0
  level : String := ""
  primaryPollutant : String := ""
deriving DecidableEq

/-- PrecipitationInfo mirrors the inline `Precipitation` struct of
`data.DailyForecast`. -/
structure PrecipitationInfo where
  probability : ℚ := 0
  amount : ℚ := 0
  unit : String := ""
deriving DecidableEq

/-- DailyForecast mirrors `data.DailyForecast` (the `Date` string is the
rendered day index, see the module conventions; `Suggestion` flattened). -/
structure DailyForecast where
  date : String := ""
  weather : WeatherCondition := {}
  temperature : RangeQ := {}
  humidity : RangeQ := {}
  wind : Wind := {}
  precipitation : PrecipitationInfo := {}
  airQuality : AirQuality := {}
deriving DecidableEq

/-- WeatherForecast mirrors `data.WeatherForecast` (`UpdateTime` as minutes,
notices flattened to their content strings). -/
structure WeatherForecast where
  city : String := ""
  updateTime : Int := 0
  source : String := ""
  dailyForecasts : List DailyForecast := []
  specialNotices : List String := []
deriving DecidableEq

/-- Store is the snapshot held by `data.Store`'s internal cache: one field
per dataset, `weather` a nullable pointer. -/
structure Store where
  districts : List District := []
  attractions : List Attraction := []
  restaurants : List Restaurant := []
  hotels : List Hotel := []
  weather : Option WeatherForecast := none
deriving DecidableEq

/-- DataLoader models the per-dataset outcome of `loader.loadJSONFile` for
the five datasets `Store.LoadAll` requests, in its load order. -/
structure DataLoader where
  districts : Except String (List District)
  attractions : Except String (List Attraction)
  restaurants : Except String (List Restaurant)
  hotels : Except String (List Hotel)
  weather : Except String WeatherForecast

/-- loadAll mirrors `Store.LoadAll`: it loads the five datasets in order,
assigning each into the cache as soon as it arrives, and returns at the
first failure. The returned pair is the cache as left by the call together
with the error (if any), matching the in-place mutation of `s.cache`. -/
def loadAll (l : DataLoader) (c : Store) : Store × Option String :=
  match l.districts with
  | .error e => (c, some e)
  | .ok ds =>
    let c1 := { c with districts := ds }
    match l.attractions with
    | .error e => (c1, some e)
    | .ok atts =>
      let c2 := { c1 with attractions := atts }
      match l.restaurants with
      | .error e => (c2, some e)
      | .ok rs =>
        let c3 := { c2 with restaurants := rs }
        match l.hotels with
        | .error e => (c3, some e)
        | .ok hs =>
          let c4 := { c3 with hotels := hs }
          match l.weather with
          | .error e => (c4, some e)
          | .ok w => ({ c4 with weather := some w }, none)

/-- getWeatherForecast mirrors `Store.GetWeatherForecast`. -/
def getWeatherForecast (s : Store) : Option WeatherForecast :=
  s.weather

/-- findNearbyRestaurants mirrors `Store.FindNearbyRestaurants`, with the
Haversine distance abstracted as `dist`. -/
def findNearbyRestaurants (dist : Location → Location → ℚ) (s : Store)
    (loc : Location) (distanceKm : ℚ) : List Restaurant :=
  s.restaurants.filter (fun r => dist loc r.coordinates ≤ distanceKm)

/-- findHotelsByPriceRange mirrors `Store.FindHotelsByPriceRange`: a hotel is
kept iff `minPrice ≤ PriceRange.Min` and `PriceRange.Max ≤ maxPrice`. -/
def findHotelsByPriceRange (s : Store) (minPrice maxPrice : ℚ) : List Hotel :=
  s.hotels.filter (fun h => minPrice ≤ h.priceRange.min ∧ h.priceRange.max ≤ maxPrice)

/-- timeFormatDate renders a minutes-based instant as its day-index string,
the embedding of Go's `t.Format("2006-01-02")`. -/
def timeFormatDate (t : Int) : String :=
  toString (Int.fdiv t 1440)

/-- containsAny mirrors the `containsAny` helper shared by the dining and
accommodation agents. -/
def containsAny (slice targets : List String) : Bool :=
  slice.any (fun s => targets.any (fun t => s == t))

/-- strContains mirrors the `contains` helper of the weather agent and the
coordinator. -/
def strContains (slice : List String) (str : String) : Bool :=
  slice.any (fun s => s == str)

/-- joinStr mirrors the custom `join` helper (note: three or more entries are
rendered as the first two followed by a suffix). -/
def joinStr (slice : List String) (sep : String) : String :=
  match slice with
  | [] => ""
  | [a] => a
  | [a, b] => a ++ sep ++ b
  | a :: b :: _ => a ++ sep ++ b ++ "等"

/-- WeatherAdvice mirrors `weather.WeatherAdvice`. -/
structure WeatherAdvice where
  weather : Option DailyForecast := none
  suitable : List String := []
  unsuitable : List String := []
  precautions : List String := []
  indoorOptions : List String := []
  outdoorOptions : List String := []
deriving DecidableEq

/-- isRainyF is the `isRainy` flag of
`WeatherAgent.generateActivityRecommendations`. -/
def isRainyF (f : DailyForecast) : Bool :=
  strContains ["小雨", "中雨", "大雨"] f.weather.day

/-- isSunnyF is the `isSunny` flag of the weather agent. -/
def isSunnyF (f : DailyForecast) : Bool :=
  strContains ["晴", "多云"] f.weather.day

/-- isHotF is the `isHot` flag: maximum temperature above 30. -/
def isHotF (f : DailyForecast) : Bool :=
  decide (30 < f.temperature.max)

/-- isColdF is the `isCold` flag: minimum temperature below 10. -/
def isColdF (f : DailyForecast) : Bool :=
  decide (f.temperature.min < 10)

/-- isWindyF is the `isWindy` flag: maximum wind speed above 30. -/
def isWindyF (f : DailyForecast) : Bool :=
  decide (30 < f.wind.speed.max)

/-- isPoorAirF is the `isPoorAirQuality` flag: AQI above 150. -/
def isPoorAirF (f : DailyForecast) : Bool :=
  decide (150 < f.airQuality.aqi)

/-- generateActivityRecommendations mirrors
`WeatherAgent.generateActivityRecommendations`: an ordered, non-exclusive
rule table appending to the advice lists, followed by the two fallbacks. -/
def generateActivityRecommendations (forecast : DailyForecast)
    (advice : WeatherAdvice) : WeatherAdvice :=
  let a := advice
  let a := if isRainyF forecast then
      { a with
        unsuitable := a.unsuitable ++ ["户外徒步", "西湖游船", "户外摄影"],
        precautions := a.precautions ++ ["携带雨具", "注意路滑", "避免湿鞋"],
        indoorOptions := a.indoorOptions ++ ["博物馆参观", "茶馆品茶", "室内购物"] }
    else a
  let a := if isSunnyF forecast && !isHotF forecast then
      { a with
        suitable := a.suitable ++ ["西湖游船", "灵隐寺参观", "龙井茶园"],
        precautions := a.precautions ++ ["做好防晒", "补充水分"],
        outdoorOptions := a.outdoorOptions ++ ["徒步西湖", "城市观光", "公园漫步"] }
    else a
  let a := if isHotF forecast then
      { a with
        unsuitable := a.unsuitable ++ ["长时间户外活动", "徒步登山"],
        precautions := a.precautions ++ ["避免中午外出", "防暑降温", "及时补水"],
        indoorOptions := a.indoorOptions ++ ["博物馆", "商场购物", "室内娱乐"] }
    else a
  let a := if isColdF forecast then
      { a with
        precautions := a.precautions ++ ["注意保暖", "准备厚衣物"],
        indoorOptions := a.indoorOptions ++ ["温泉体验", "室内景点"] }
    else a
  let a := if isWindyF forecast then
      { a with
        unsuitable := a.unsuitable ++ ["登高望远", "游船活动"],
        precautions := a.precautions ++ ["注意防风", "避免易飞物品"] }
    else a
  let a := if isPoorAirF forecast then
      { a with
        unsuitable := a.unsuitable ++ ["户外运动", "长时间户外活动"],
        precautions := a.precautions ++ ["佩戴口罩", "减少户外活动"],
        indoorOptions := a.indoorOptions ++ ["室内活动为主", "避免剧烈运动"] }
    else a
  let a := if a.indoorOptions.length = 0 then
      { a with indoorOptions := ["博物馆参观", "茶馆品茶", "特色餐厅", "商场购物"] }
    else a
  let a := if a.outdoorOptions.length = 0
              && !isRainyF forecast && !isPoorAirF forecast && !isWindyF forecast then
      { a with outdoorOptions := ["西湖景区游览", "灵隐寺参观", "城市观光"] }
    else a
  a

/-- getAdvice mirrors `WeatherAgent.GetAdvice` of the tourism weather agent:
it returns `none` (Go: `nil, nil` — no error!) when the forecast dataset is
absent or empty or has no entry for the requested date, and otherwise the
advice generated from the matching daily forecast. -/
def getAdvice (s : Store) (date : Int) : Option WeatherAdvice :=
  match getWeatherForecast s with
  | none => none
  | some forecast =>
    if forecast.dailyForecasts.length = 0 then none
    else
      match forecast.dailyForecasts.find? (fun f => f.date == timeFormatDate date) with
      | none => none
      | some todayForecast =>
          some (generateActivityRecommendations todayForecast
                  { weather := some todayForecast })

/-- DiningRequest mirrors `dining.DiningRequest` (`Time` in minutes). -/
structure DiningRequest where
  location : Location
  time : Int := 0
  budget : ℚ
  cuisine : List String := []
  partySize : Int := 0
  distance : ℚ := 0
  preferences : List String := []
deriving DecidableEq

/-- DiningRecommendation mirrors `dining.DiningRecommendation`; the
`restaurant` field holds the value the Go `*Restaurant` pointer
dereferences to after `Recommend`'s loop (see the module conventions on
go-1.21 loop-variable aliasing). -/
structure DiningRecommendation where
  restaurant : Restaurant
  distanceKm : ℚ
  reasonToVisit : List String := []
  specialNotes : List String := []
  reservationTip : String := ""
deriving DecidableEq

/-- scoreRestaurant mirrors `RestaurantAgent.scoreRestaurant`: zero when the
average price exceeds the per-person budget, otherwise a price-proximity
term plus cuisine and preference bonuses. -/
def scoreRestaurant (r : Restaurant) (req : DiningRequest) : ℚ :=
  let avgPrice := (r.priceRange.min + r.priceRange.max) / 2
  if req.budget < avgPrice then 0
  else
    let priceFactor := 1 - (req.budget - avgPrice) / req.budget
    let score := priceFactor * 3
    let score := score + (if req.cuisine.any (fun c => r.cuisineType == c) then 5 else 0)
    let score := req.preferences.foldl
      (fun s pref => if containsAny r.features [pref] then s + 2 else s) score
    score

/-- generateReasonsR mirrors `RestaurantAgent.generateReasons`. -/
def generateReasonsR (r : Restaurant) (req : DiningRequest) : List String :=
  (if 0 < r.signatureDishes.length then
      ["特色菜品: " ++ joinStr r.signatureDishes (", ")] else []) ++
  (let matchedFeatures := r.features.filter (fun f => containsAny req.preferences [f])
   if 0 < matchedFeatures.length then
      ["符合偏好: " ++ joinStr matchedFeatures (", ")] else []) ++
  (if r.priceRange.level == "中等" || r.priceRange.level == "经济" then
      ["性价比高"] else [])

/-- generateNotesR mirrors `RestaurantAgent.generateNotes`. -/
def generateNotesR (r : Restaurant) : List String :=
  (if r.reservationNeeded then ["建议提前预约"] else []) ++
  (match r.openingHours.breakTime with
   | some bt => ["注意中午休息时间: " ++ bt.start ++ "-" ++ bt.stop]
   | none => [])

/-- getReservationTip mirrors `RestaurantAgent.getReservationTip`
(the hour of a minutes-instant is `(t mod 1440) / 60`). -/
def getReservationTip (r : Restaurant) (t : Int) (partySize : Int) : String :=
  if !r.reservationNeeded then "无需预约"
  else if 6 < partySize then "建议至少提前1天预约"
  else
    let hour := (Int.emod t 1440) / 60
    if (11 ≤ hour ∧ hour ≤ 13) ∨ (17 ≤ hour ∧ hour ≤ 19) then
      "高峰时段，建议提前2小时预约"
    else "建议提前预约"

/-- diningLess mirrors the `sort.Slice` comparator of
`RestaurantAgent.Recommend`: higher score first, ties broken by smaller
distance. -/
def diningLess (req : DiningRequest) (a b : DiningRecommendation) : Bool :=
  if scoreRestaurant a.restaurant req = scoreRestaurant b.restaurant req then
    decide (a.distanceKm < b.distanceKm)
  else
    decide (scoreRestaurant b.restaurant req < scoreRestaurant a.restaurant req)

/-- restaurantRecommend mirrors `RestaurantAgent.Recommend`: nearby lookup,
keep restaurants of positive score, sort by the comparator, truncate to
five. The Go method's error result is always `nil` and is omitted. The Go
code stores `Restaurant: &r` of the go-1.21 loop variable shared across
iterations, so at sort time and in the returned slice every
recommendation's `Restaurant` dereferences to the LAST nearby restaurant;
the embedding sets `restaurant` to that last element, while distance,
reasons, notes and the reservation tip are computed by value from the
iteration's restaurant. -/
def restaurantRecommend (dist : Location → Location → ℚ) (s : Store)
    (req : DiningRequest) : List DiningRecommendation :=
  let nearby := findNearbyRestaurants dist s req.location req.distance
  match nearby.getLast? with
  | none => []
  | some rLast =>
    let recommendations := nearby.filterMap (fun r =>
      if 0 < scoreRestaurant r req then
        some { restaurant := rLast,
               distanceKm := dist req.location r.coordinates,
               reasonToVisit := generateReasonsR r req,
               specialNotes := generateNotesR r,
               reservationTip := getReservationTip r req.time req.partySize }
      else none)
    (List.insertionSort (fun a b => diningLess req b a = false) recommendations).take 5

/-- AccommodationRequest mirrors `accommodation.AccommodationRequest`
(check-in and check-out as minutes). -/
structure AccommodationRequest where
  location : Location
  checkIn : Int := 0
  checkOut : Int := 0
  budget : ℚ
  guestCount : Int := 0
  distance : ℚ := 0
  preferences : List String := []
  requirements : List String := []
deriving DecidableEq

/-- RoomChoice mirrors `accommodation.RoomChoice`. -/
structure RoomChoice where
  type : String := ""
  price : ℚ := 0
  size : ℚ := 0
  features : List String := []
  notes : String := ""
deriving DecidableEq

/-- HotelRecommendation mirrors `accommodation.HotelRecommendation`; the
`hotel` field holds the value the Go `*Hotel` pointer dereferences to after
`Recommend`'s loop (see the module conventions on go-1.21 loop-variable
aliasing). -/
structure HotelRecommendation where
  hotel : Hotel
  distanceKm : ℚ
  reasonToBook : List String := []
  roomTypes : List RoomChoice := []
  specialNotes : List String := []
deriving DecidableEq

/-- hasAffordableRoom is the room-affordability test opening
`HotelAgent.scoreHotel`: at least one room priced at or below the
per-night budget. -/
def hasAffordableRoom (h : Hotel) (budget : ℚ) : Bool :=
  h.rooms.any (fun room => decide (room.price ≤ budget))

/-- scoreHotel mirrors `HotelAgent.scoreHotel`: zero without an affordable
room, otherwise a distance term plus amenity and category bonuses. -/
def scoreHotel (dist : Location → Location → ℚ) (h : Hotel)
    (req : AccommodationRequest) : ℚ :=
  if !hasAffordableRoom h req.budget then 0
  else
    let distanceScore := 1 - dist req.location h.coordinates / req.distance
    let score := distanceScore * 3
    let score := req.preferences.foldl
      (fun s pref => if containsAny h.amenities [pref] then s + 2 else s) score
    let score := score +
      (if h.category == "五星级" then 5
       else if h.category == "四星级" then 4
       else if h.category == "精品酒店" then 3
       else 0)
    score

/-- findSuitableRooms mirrors `HotelAgent.findSuitableRooms`. -/
def findSuitableRooms (h : Hotel) (req : AccommodationRequest) : List RoomChoice :=
  h.rooms.filterMap (fun room =>
    if room.price ≤ req.budget then
      some { type := room.type, price := room.price, size := room.sizeSqm,
             features := room.features,
             notes :=
               if 2 < req.guestCount ∧ containsAny room.features ["大床", "单床"] then
                 "可能不适合当前人数"
               else if containsAny room.features req.requirements then "符合需求"
               else "" }
    else none)

/-- generateReasonsH mirrors the accommodation agent's `generateReasons`. -/
def generateReasonsH (h : Hotel) (req : AccommodationRequest) : List String :=
  (if 0 < h.transport.nearbyStations.length then
      ["交通便利: 临近" ++ joinStr h.transport.nearbyStations (", ")] else []) ++
  (let matchedAmenities := h.amenities.filter (fun a => containsAny req.preferences [a])
   if 0 < matchedAmenities.length then
      ["设施齐全: " ++ joinStr matchedAmenities (", ")] else []) ++
  (if h.priceRange.level == "经济" || h.priceRange.level == "中等" then
      ["性价比高"] else [])

/-- generateNotesH mirrors the accommodation agent's `generateNotes`. -/
def generateNotesH (h : Hotel) : List String :=
  ["距离机场: " ++ h.transport.fromAirportTaxiTime] ++
  (if h.priceRange.notes ≠ "" then ["价格提示: " ++ h.priceRange.notes] else [])

/-- hotelLess mirrors the `sort.Slice` comparator of
`HotelAgent.Recommend`. -/
def hotelLess (dist : Location → Location → ℚ) (req : AccommodationRequest)
    (a b : HotelRecommendation) : Bool :=
  if scoreHotel dist a.hotel req = scoreHotel dist b.hotel req then
    decide (a.distanceKm < b.distanceKm)
  else
    decide (scoreHotel dist b.hotel req < scoreHotel dist a.hotel req)

/-- hotelRecommend mirrors `HotelAgent.Recommend`: a `FindHotelsByPriceRange`
pre-filter with bounds `0` and the night budget, then radius and positive
score, sorted by the comparator and truncated to five. The Go method's error
result is always `nil` and is omitted. The Go code stores `Hotel: &h` of the
go-1.21 loop variable shared across iterations, so every returned
recommendation's `Hotel` dereferences to the LAST hotel of the price-range
query result (the loop ranges over all of it); the embedding sets `hotel` to
that last element, while distance, reasons, room types and notes are
computed by value from the iteration's hotel. -/
def hotelRecommend (dist : Location → Location → ℚ) (s : Store)
    (req : AccommodationRequest) : List HotelRecommendation :=
  let hotels := findHotelsByPriceRange s 0 req.budget
  match hotels.getLast? with
  | none => []
  | some hLast =>
    let recommendations := hotels.filterMap (fun h =>
      let d := dist req.location h.coordinates
      if d ≤ req.distance then
        if 0 < scoreHotel dist h req then
          some { hotel := hLast, distanceKm := d,
                 reasonToBook := generateReasonsH h req,
                 roomTypes := findSuitableRooms h req,
                 specialNotes := generateNotesH h }
        else none
      else none)
    (List.insertionSort (fun a b => hotelLess dist req b a = false) recommendations).take 5

/-- Budget mirrors the inline budget struct of `TripPlanRequest`. -/
structure Budget where
  total : ℚ
  hotel : ℚ
  food : ℚ
  activity : ℚ
deriving DecidableEq

/-- TripPreferences mirrors the inline preferences struct of
`TripPlanRequest`. -/
structure TripPreferences where
  activities : List String := []
  cuisine : List String := []
  hotel : List String := []
deriving DecidableEq

/-- TripPlanRequest mirrors `coordinator.TripPlanRequest` /
`data.TripPlanRequest` (dates as minutes; the multi-agent variant's
location carries a display name). -/
structure TripPlanRequest where
  startDate : Int
  endDate : Int
  location : Location
  budget : Budget
  preferences : TripPreferences := {}
  partySize : Int
  requirements : List String := []
deriving DecidableEq

/-- validateRequest mirrors `CoordinatorAgent.validateRequest`: the checks
run in order and the first violation's message is returned (`none` means
the request is valid). Go's `t.IsZero()` is the zero instant `0`. -/
def validateRequest (r : TripPlanRequest) : Option String :=
  if r.startDate = 0 ∨ r.endDate = 0 then some ("invalid dates")
  else if r.endDate < r.startDate then some ("end date cannot be before start date")
  else if r.location.name = "" then some ("location name is required")
  else if r.location.latitude = 0 ∧ r.location.longitude = 0 then
    some ("invalid location coordinates")
  else if r.budget.total ≤ 0 then some ("total budget must be positive")
  else if r.budget.hotel ≤ 0 then some ("hotel budget must be positive")
  else if r.budget.food ≤ 0 then some ("food budget must be positive")
  else if r.budget.activity ≤ 0 then some ("activity budget must be positive")
  else if r.partySize ≤ 0 then some ("party size must be positive")
  else none

/-- Activity mirrors `coordinator.Activity`. -/
structure Activity where
  time : String := ""
  type : String := ""
  location : Location := {latitude := 0, longitude := 0}
  attraction : Option Attraction := none
  duration : Int := 0
  notes : List String := []
deriving DecidableEq

/-- DailyPlan mirrors `coordinator.DailyPlan`. -/
structure DailyPlan where
  date : String := ""
  weather : Option WeatherAdvice := none
  activities : List Activity := []
  dining : List DiningRecommendation := []
  notes : List String := []
deriving DecidableEq

/-- Overview mirrors the inline overview struct of `coordinator.TripPlan`. -/
structure Overview where
  duration : Int := 0
  totalCost : ℚ := 0
  highlights : List String := []
deriving DecidableEq

/-- TripPlan mirrors `coordinator.TripPlan`. -/
structure TripPlan where
  overview : Overview := {}
  accommodation : Option HotelRecommendation := none
  dailyPlans : List DailyPlan := []
  tips : List String := []
deriving DecidableEq

/-- planActivities mirrors `TripPlanner.planActivities`: a morning block
(outdoor 180 minutes when a suitable activity or outdoor option exists,
otherwise indoor 120 minutes), an afternoon block of 180 minutes (indoor
when prolonged outdoor activity is unsuitable), and a fixed evening block
of 90 minutes. -/
def planActivities (advice : WeatherAdvice) : List Activity :=
  let morning :=
    if 0 < advice.suitable.length ∨ 0 < advice.outdoorOptions.length then
      { time := "09:00", type := "景点", duration := 180,
        notes := advice.precautions : Activity }
    else
      { time := "10:00", type := "室内活动", duration := 120,
        notes := advice.precautions : Activity }
  let afternoon :=
    if strContains advice.unsuitable ("长时间户外活动") then
      { time := "14:00", type := "室内活动", duration := 180,
        notes := advice.precautions ++ ["选择室内景点"] : Activity }
    else
      { time := "14:00", type := "景点", duration := 180,
        notes := advice.precautions : Activity }
  let evening :=
    { time := "20:00", type := "休闲活动", duration := 90,
      notes := ["夜景观赏", "文化体验"] : Activity }
  [morning, afternoon, evening]

/-- planDay mirrors `TripPlanner.planDay`: weather advice (whose absence is
not an error from `GetAdvice`), two independent dining queries for lunch
(noon) and dinner (18:00) with half the daily food budget each, then
`planActivities`. When the weather advice is `nil`, `planActivities`
dereferences it (`len(weather.Suitable)`) and the Go program panics; the
panic is modelled as a `runtimePanic` result. -/
def planDay (dist : Location → Location → ℚ) (s : Store) (date : Int)
    (req : TripPlanRequest) : Except GoErr DailyPlan :=
  let weatherAdvice := getAdvice s date
  let lunchReq : DiningRequest :=
    { location := req.location, time := date + 720, budget := req.budget.food / 2,
      cuisine := req.preferences.cuisine, partySize := req.partySize,
      distance := 2, preferences := req.preferences.activities }
  let lunch := restaurantRecommend dist s lunchReq
  let dinnerReq : DiningRequest := { lunchReq with time := date + 1080 }
  let dinner := restaurantRecommend dist s dinnerReq
  let dining :=
    (match lunch with | l :: _ => [l] | [] => []) ++
    (match dinner with | d :: _ => [d] | [] => [])
  match weatherAdvice with
  | none => .error (.runtimePanic ("invalid memory address or nil pointer dereference"))
  | some advice =>
      .ok { date := timeFormatDate date, weather := some advice,
            activities := planActivities advice, dining := dining, notes := [] }

/-- planDaysList is the daily-plan loop of `TripPlanner.Plan`, one `planDay`
per date, stopping at the first failure. -/
def planDaysList (dist : Location → Location → ℚ) (s : Store)
    (req : TripPlanRequest) : List Int → Except GoErr (List DailyPlan)
  | [] => .ok []
  | date :: dates =>
    match planDay dist s date req with
    | .error e => .error e
    | .ok p =>
      match planDaysList dist s req dates with
      | .error e => .error e
      | .ok ps => .ok (p :: ps)

/-- highlightsOf is the highlight-extraction loop of
`TripPlanner.finalizeTrip`; it dereferences each day's weather advice
(`len(day.Weather.Suitable)`), panicking when it is `nil`. -/
def highlightsOf : List DailyPlan → Except GoErr (List String)
  | [] => .ok []
  | day :: rest =>
    match day.weather with
    | none => .error (.runtimePanic ("invalid memory address or nil pointer dereference"))
    | some w =>
      match highlightsOf rest with
      | .error e => .error e
      | .ok hs =>
        .ok (if 0 < w.suitable.length then
               (day.date ++ "适合：" ++ joinStr w.suitable ("、")) :: hs
             else hs)

/-- finalizeTrip mirrors `TripPlanner.finalizeTrip`: fixed general tips,
extra tips when the center lies in the West-Lake bounding box, and the
highlights extracted per day. It never touches `Overview.TotalCost`. -/
def finalizeTrip (req : TripPlanRequest) (plan : TripPlan) : Except GoErr TripPlan :=
  let tips := ["建议提前预订热门景点门票", "准备雨具以防不时之需",
               "关注天气变化适时调整行程", "重要物品请随身携带"]
  let tips :=
    if 30.2 ≤ req.location.latitude ∧ req.location.latitude ≤ 30.3 ∧
       120.1 ≤ req.location.longitude ∧ req.location.longitude ≤ 120.2 then
      tips ++ ["西湖景区周末人流量较大", "建议选择地铁等公共交通工具", "可以考虑购买景区联票"]
    else tips
  match highlightsOf plan.dailyPlans with
  | .error e => .error e
  | .ok hs =>
      .ok { plan with
            tips := tips,
            overview := { plan.overview with highlights := hs } }

/-- hotelReqOf is the `AccommodationRequest` literal built inside
`TripPlanner.Plan` (fixed 2 km radius). -/
def hotelReqOf (req : TripPlanRequest) : AccommodationRequest :=
  { location := req.location, checkIn := req.startDate, checkOut := req.endDate,
    budget := req.budget.hotel, guestCount := req.partySize, distance := 2,
    preferences := req.preferences.hotel, requirements := req.requirements }

/-- dateList is the list of per-day dates visited by the daily loop of
`TripPlanner.Plan`: `StartDate.AddDate(0,0,i)` for `i < days`. -/
def dateList (start : Int) (n : Nat) : List Int :=
  (List.range n).map (fun (i : Nat) => start + 1440 * (i : Int))

/-- Plan mirrors `TripPlanner.Plan` (the fully wired coordinator variant):
whole-day count by truncated division, early `invalid date range` error,
one hotel query whose top result (if any) becomes the accommodation, the
daily loop, and `finalizeTrip`. `validateRequest` is NOT called here. -/
def Plan (dist : Location → Location → ℚ) (s : Store) (req : TripPlanRequest) :
    Except GoErr TripPlan :=
  let days := Int.tdiv (req.endDate - req.startDate) 1440
  if days < 1 then .error (.errMsg ("invalid date range"))
  else
    let hotels := hotelRecommend dist s (hotelReqOf req)
    match planDaysList dist s req (dateList req.startDate days.toNat) with
    | .error e => .error e
    | .ok dailyPlans =>
        finalizeTrip req
          { overview := { duration := days, totalCost := 0, highlights := [] },
            accommodation := hotels.head?, dailyPlans := dailyPlans, tips := [] }

/-! Concrete fixtures used by the witnesses and counterexamples. -/

/-- dist0 is a concrete admissible distance function: every Haversine
distance between a point and itself is `0`, and all fixture POIs sit at the
request's own coordinates. -/
def dist0 : Location → Location → ℚ := fun _ _ => 0

/-- locCenter is the West-Lake center used by the fixtures. -/
def locCenter : Location :=
  { latitude := 30.2587, longitude := 120.1315, name := "西湖" }

/-- r0 is a fixture restaurant at the center, average price 50. -/
def r0 : Restaurant :=
  { id := "R1", name := "楼外楼",
    coordinates := { latitude := 30.2587, longitude := 120.1315 },
    cuisineType := "杭帮菜",
    priceRange := { min := 40, max := 60, level := "中等" },
    signatureDishes := ["西湖醋鱼"], features := ["安静"],
    reservationNeeded := true }

/-- rOver is a fixture restaurant at the center whose average price 400
exceeds the 150 per-person budget (score zero). -/
def rOver : Restaurant :=
  { id := "R2", name := "高价餐厅",
    coordinates := { latitude := 30.2587, longitude := 120.1315 },
    cuisineType := "杭帮菜",
    priceRange := { min := 300, max := 500, level := "高端" } }

/-- storeTwo holds the affordable fixture restaurant followed by the
over-budget one, so the loop variable ends on the over-budget one. -/
def storeTwo : Store :=
  { restaurants := [r0, rOver] }

/-- h1 is a fixture hotel at the center with an affordable room and a price
range inside the queried band. -/
def h1 : Hotel :=
  { id := "H1", name := "湖畔酒店", category := "四星级",
    coordinates := { latitude := 30.2587, longitude := 120.1315 },
    priceRange := { min := 200, max := 600 },
    rooms := [{ type := "标准间", price := 500 }],
    amenities := ["商务"] }

/-- hC3 is a fixture hotel with one affordable room (price 50) but a price
range reaching above the budget (`Max = 1000`). -/
def hC3 : Hotel :=
  { id := "H2", name := "奢华酒店",
    coordinates := { latitude := 30.2587, longitude := 120.1315 },
    priceRange := { min := 0, max := 1000 },
    rooms := [{ type := "小间", price := 50 }] }

/-- fSunny is a clear mild forecast for day index 0. -/
def fSunny : DailyForecast :=
  { date := "0", weather := { day := "晴", night := "晴" },
    temperature := { max := 25, min := 15 },
    wind := { speed := { max := 10, min := 0 } },
    airQuality := { aqi := 50 } }

/-- fRainy is a rainy forecast for day index 0. -/
def fRainy : DailyForecast :=
  { date := "0", weather := { day := "小雨", night := "小雨" },
    temperature := { max := 20, min := 12 },
    wind := { speed := { max := 10, min := 0 } },
    airQuality := { aqi := 50 } }

/-- fHotWindy is a forecast that is both hot (max 35) and windy (max wind
40) for day index 0. -/
def fHotWindy : DailyForecast :=
  { date := "0", weather := { day := "晴", night := "晴" },
    temperature := { max := 35, min := 26 },
    wind := { speed := { max := 40, min := 20 } },
    airQuality := { aqi := 50 } }

/-- fHotCalm is a hot forecast (max 35) with calm wind and good air. -/
def fHotCalm : DailyForecast :=
  { date := "0", weather := { day := "晴", night := "晴" },
    temperature := { max := 35, min := 26 },
    wind := { speed := { max := 10, min := 0 } },
    airQuality := { aqi := 50 } }

/-- fLater is a clear forecast for day index 5 only. -/
def fLater : DailyForecast :=
  { fSunny with date := "5" }

/-- storeW has only a weather forecast covering day 0. -/
def storeW : Store :=
  { weather := some { dailyForecasts := [fSunny] } }

/-- storeRainy has only a rainy forecast covering day 0. -/
def storeRainy : Store :=
  { weather := some { dailyForecasts := [fRainy] } }

/-- storeNoW has a non-empty forecast dataset, but no entry for day 0. -/
def storeNoW : Store :=
  { weather := some { dailyForecasts := [fLater] } }

/-- storeFood has the fixture restaurant and the clear forecast. -/
def storeFood : Store :=
  { restaurants := [r0], weather := some { dailyForecasts := [fSunny] } }

/-- storeC1 has the fixture restaurant, the fixture hotel and the clear
forecast. -/
def storeC1 : Store :=
  { restaurants := [r0], hotels := [h1],
    weather := some { dailyForecasts := [fSunny] } }

/-- storeC3 holds only the hotel whose price range exceeds the budget. -/
def storeC3 : Store :=
  { hotels := [hC3] }

/-- reqGood is a valid one-day trip request (day 0 to day 1). -/
def reqGood : TripPlanRequest :=
  { startDate := 0, endDate := 1440, location := locCenter,
    budget := { total := 2000, hotel := 800, food := 300, activity := 200 },
    preferences := { activities := ["安静"], cuisine := ["杭帮菜"], hotel := ["商务"] },
    partySize := 2 }

/-- reqBadBudget is `reqGood` with a negative hotel budget. -/
def reqBadBudget : TripPlanRequest :=
  { reqGood with
    budget := { total := 2000, hotel := -1, food := 300, activity := 200 } }

/-- dreq0 is a concrete dining request (lunch slot of `reqGood`). -/
def dreq0 : DiningRequest :=
  { location := locCenter, time := 720, budget := 150, cuisine := ["杭帮菜"],
    partySize := 2, distance := 2, preferences := ["安静"] }

/-- hreq0 is a concrete accommodation request matching `reqGood`. -/
def hreq0 : AccommodationRequest :=
  { location := locCenter, checkIn := 0, checkOut := 1440, budget := 800,
    guestCount := 2, distance := 2, preferences := ["商务"] }

/-- hreqC3 is an accommodation request with a 100-per-night budget. -/
def hreqC3 : AccommodationRequest :=
  { location := locCenter, budget := 100, guestCount := 2, distance := 2 }

/-- d0 is a fixture district held by the pre-existing cache snapshot. -/
def d0 : District := { id := "XH", name := "西湖区" }

/-- d1 is the fixture district delivered by the failing reload. -/
def d1 : District := { id := "GS", name := "拱墅区" }

/-- cacheBefore is a previously loaded snapshot. -/
def cacheBefore : Store := { districts := [d0] }

/-- loaderFail delivers districts but fails on the attractions dataset. -/
def loaderFail : DataLoader :=
  { districts := .ok [d1],
    attractions := .error ("failed to read file tourism/attractions.json"),
    restaurants := .ok [], hotels := .ok [], weather := .ok {} }

/-- okPlan extracts the plan of a successful `Plan` call (an empty plan on
error; used only to phrase closed witness statements). -/
def okPlan : Except GoErr TripPlan → TripPlan
  | .ok p => p
  | .error _ => {}

/-- isOkPlan tells whether a `Plan` call returned a plan. -/
def isOkPlan : Except GoErr TripPlan → Bool
  | .ok _ => true
  | .error _ => false

/-- firstActivityDuration extracts the duration of the first activity block
of the first daily plan (-1 when absent, -2 on a failed call). -/
def firstActivityDuration : Except GoErr TripPlan → Int
  | .ok p =>
    match p.dailyPlans with
    | d :: _ =>
      match d.activities with
      | a :: _ => a.duration
      | [] => -1
    | [] => -1
  | .error _ => -2

/-- firstDiningAvgPrice extracts the average menu price of the first dining
pick of the first daily plan (-1 when absent, -2 on a failed call). -/
def firstDiningAvgPrice : Except GoErr TripPlan → ℚ
  | .ok p =>
    match p.dailyPlans with
    | d :: _ =>
      match d.dining with
      | rec :: _ => (rec.restaurant.priceRange.min + rec.restaurant.priceRange.max) / 2
      | [] => -1
    | [] => -1
  | .error _ => -2

/-- totalCostOf extracts the overview total cost (-1 on a failed call). -/
def totalCostOf : Except GoErr TripPlan → ℚ
  | .ok p => p.overview.totalCost
  | .error _ => -1

/-! General lemmas about the comparator-driven sort and the planning loop. -/

/-- goLess is the shared shape of both `sort.Slice` comparators, on
(score, distance) keys: bigger score first, ties by smaller distance. -/
def goLess (p q : ℚ × ℚ) : Bool :=
  if p.1 = q.1 then decide (p.2 < q.2) else decide (q.1 < p.1)

/-- goLess_false_iff characterises when the Go comparator does NOT place `q`
before `p`: `q` scores lower, or scores tie and `p` is at most as far. -/
theorem goLess_false_iff (p q : ℚ × ℚ) :
    goLess q p = false ↔ (q.1 < p.1 ∨ (p.1 = q.1 ∧ p.2 ≤ q.2)) := by
  unfold goLess
  split_ifs with h
  · simp only [decide_eq_false_iff_not, not_lt]
    constructor
    · intro hle
      exact Or.inr ⟨h.symm, hle⟩
    · rintro (hlt | ⟨-, hle⟩)
      · exact absurd hlt (by simp [h])
      · exact hle
  · simp only [decide_eq_false_iff_not, not_lt]
    constructor
    · intro hle
      exact Or.inl (lt_of_le_of_ne hle h)
    · rintro (hlt | ⟨he, -⟩)
      · exact le_of_lt hlt
      · exact le_of_eq he.symm

/-- goLess_total states totality of the derived non-strict order. -/
theorem goLess_total (p q : ℚ × ℚ) :
    goLess q p = false ∨ goLess p q = false := by
  rw [goLess_false_iff, goLess_false_iff]
  rcases lt_trichotomy p.1 q.1 with h | h | h
  · exact Or.inr (Or.inl h)
  · rcases le_total p.2 q.2 with h2 | h2
    · exact Or.inl (Or.inr ⟨h, h2⟩)
    · exact Or.inr (Or.inr ⟨h.symm, h2⟩)
  · exact Or.inl (Or.inl h)

/-- goLess_trans states transitivity of the derived non-strict order. -/
theorem goLess_trans (p q r : ℚ × ℚ) (h1 : goLess q p = false)
    (h2 : goLess r q = false) : goLess r p = false := by
  rw [goLess_false_iff] at h1 h2 ⊢
  rcases h1 with h1 | ⟨e1, l1⟩ <;> rcases h2 with h2 | ⟨e2, l2⟩
  · exact Or.inl (lt_trans h2 h1)
  · exact Or.inl (e2 ▸ h1)
  · exact Or.inl (e1 ▸ h2)
  · exact Or.inr ⟨e1.trans e2, l1.trans l2⟩

/-- pairwise_sortSlice: sorting with a Go-shaped comparator yields a list
pairwise ordered by score descending, ties by ascending distance. -/
theorem pairwise_sortSlice {α : Type} (less : α → α → Bool) (k : α → ℚ × ℚ)
    (hk : ∀ a b, less a b = goLess (k a) (k b)) (l : List α) :
    (List.insertionSort (fun a b => less b a = false) l).Pairwise
      (fun a b => (k b).1 < (k a).1 ∨ ((k a).1 = (k b).1 ∧ (k a).2 ≤ (k b).2)) := by
  have htotal : IsTotal α (fun a b => less b a = false) :=
    ⟨fun a b => by rw [hk, hk]; exact goLess_total (k a) (k b)⟩
  have htrans : IsTrans α (fun a b => less b a = false) :=
    ⟨fun a b c hab hbc => by
      rw [hk] at hab hbc ⊢
      exact goLess_trans _ _ _ hab hbc⟩
  have hs := @List.sorted_insertionSort α (fun a b => less b a = false) _ htotal htrans l
  exact hs.imp (fun {a b} h => by
    rw [hk] at h
    exact (goLess_false_iff (k a) (k b)).mp h)

/-- diningLess_key identifies the dining comparator with the shared shape. -/
theorem diningLess_key (req : DiningRequest) (a b : DiningRecommendation) :
    diningLess req a b =
      goLess (scoreRestaurant a.restaurant req, a.distanceKm)
             (scoreRestaurant b.restaurant req, b.distanceKm) := rfl

/-- hotelLess_key identifies the hotel comparator with the shared shape. -/
theorem hotelLess_key (dist : Location → Location → ℚ)
    (req : AccommodationRequest) (a b : HotelRecommendation) :
    hotelLess dist req a b =
      goLess (scoreHotel dist a.hotel req, a.distanceKm)
             (scoreHotel dist b.hotel req, b.distanceKm) := rfl

/-- mem_restaurantRecommend characterises a returned dining recommendation:
its stored restaurant reference is the last nearby restaurant (the go-1.21
aliased loop variable), and it was generated by a nearby restaurant with a
strictly positive score whose distance it carries. -/
theorem mem_restaurantRecommend (dist : Location → Location → ℚ) (s : Store)
    (req : DiningRequest) (rec : DiningRecommendation)
    (h : rec ∈ restaurantRecommend dist s req) :
    (findNearbyRestaurants dist s req.location req.distance).getLast? =
      some rec.restaurant ∧
    ∃ r ∈ findNearbyRestaurants dist s req.location req.distance,
      0 < scoreRestaurant r req ∧
      rec.distanceKm = dist req.location r.coordinates := by
  simp only [restaurantRecommend] at h
  split at h
  · exact absurd h (List.not_mem_nil rec)
  · next rLast hlast =>
    have h1 := List.mem_of_mem_take h
    rw [List.mem_insertionSort, List.mem_filterMap] at h1
    obtain ⟨r, hr, heq⟩ := h1
    by_cases hs : 0 < scoreRestaurant r req
    · rw [if_pos hs] at heq
      cases Option.some.inj heq
      exact ⟨hlast, r, hr, hs, rfl⟩
    · rw [if_neg hs] at heq
      exact Option.noConfusion heq

/-- mem_hotelRecommend characterises a returned hotel recommendation: its
stored hotel reference is the last hotel of the price-range query (the
go-1.21 aliased loop variable), and it was generated by a price-filtered
hotel within the radius with a strictly positive score whose distance it
carries. -/
theorem mem_hotelRecommend (dist : Location → Location → ℚ) (s : Store)
    (req : AccommodationRequest) (rec : HotelRecommendation)
    (h : rec ∈ hotelRecommend dist s req) :
    (findHotelsByPriceRange s 0 req.budget).getLast? = some rec.hotel ∧
    ∃ hh ∈ findHotelsByPriceRange s 0 req.budget,
      dist req.location hh.coordinates ≤ req.distance ∧
      0 < scoreHotel dist hh req ∧
      rec.distanceKm = dist req.location hh.coordinates := by
  simp only [hotelRecommend] at h
  split at h
  · exact absurd h (List.not_mem_nil rec)
  · next hLast hlast =>
    have h1 := List.mem_of_mem_take h
    rw [List.mem_insertionSort, List.mem_filterMap] at h1
    obtain ⟨hh, hmem, heq⟩ := h1
    by_cases hd : dist req.location hh.coordinates ≤ req.distance
    · rw [if_pos hd] at heq
      by_cases hs : 0 < scoreHotel dist hh req
      · rw [if_pos hs] at heq
        cases Option.some.inj heq
        exact ⟨hlast, hh, hmem, hd, hs, rfl⟩
      · rw [if_neg hs] at heq
        exact Option.noConfusion heq
    · rw [if_neg hd] at heq
      exact Option.noConfusion heq

/-- sorted_restaurantRecommend: the returned dining list is pairwise ordered
by score descending, ties by ascending distance. -/
theorem sorted_restaurantRecommend (dist : Location → Location → ℚ) (s : Store)
    (req : DiningRequest) :
    (restaurantRecommend dist s req).Pairwise (fun a b =>
      scoreRestaurant b.restaurant req < scoreRestaurant a.restaurant req ∨
      (scoreRestaurant a.restaurant req = scoreRestaurant b.restaurant req ∧
        a.distanceKm ≤ b.distanceKm)) := by
  simp only [restaurantRecommend]
  split
  · exact List.Pairwise.nil
  · exact List.Pairwise.sublist (List.take_sublist 5 _)
      (pairwise_sortSlice (diningLess req)
        (fun rec => (scoreRestaurant rec.restaurant req, rec.distanceKm))
        (fun a b => diningLess_key req a b) _)

/-- sorted_hotelRecommend: the returned hotel list is pairwise ordered by
score descending, ties by ascending distance. -/
theorem sorted_hotelRecommend (dist : Location → Location → ℚ) (s : Store)
    (req : AccommodationRequest) :
    (hotelRecommend dist s req).Pairwise (fun a b =>
      scoreHotel dist b.hotel req < scoreHotel dist a.hotel req ∨
      (scoreHotel dist a.hotel req = scoreHotel dist b.hotel req ∧
        a.distanceKm ≤ b.distanceKm)) := by
  simp only [hotelRecommend]
  split
  · exact List.Pairwise.nil
  · exact List.Pairwise.sublist (List.take_sublist 5 _)
      (pairwise_sortSlice (hotelLess dist req)
        (fun rec => (scoreHotel dist rec.hotel req, rec.distanceKm))
        (fun a b => hotelLess_key dist req a b) _)

/-- length_restaurantRecommend: at most five dining recommendations. -/
theorem length_restaurantRecommend (dist : Location → Location → ℚ) (s : Store)
    (req : DiningRequest) : (restaurantRecommend dist s req).length ≤ 5 := by
  simp only [restaurantRecommend]
  split
  · simp
  · exact List.length_take_le 5 _

/-- length_hotelRecommend: at most five hotel recommendations. -/
theorem length_hotelRecommend (dist : Location → Location → ℚ) (s : Store)
    (req : AccommodationRequest) : (hotelRecommend dist s req).length ≤ 5 := by
  simp only [hotelRecommend]
  split
  · simp
  · exact List.length_take_le 5 _

/-- finalizeTrip_ok: a successful finalize keeps the daily plans, the
duration, the accommodation and the (never-assigned) total cost. -/
theorem finalizeTrip_ok (req : TripPlanRequest) (p q : TripPlan)
    (h : finalizeTrip req p = .ok q) :
    q.dailyPlans = p.dailyPlans ∧ q.overview.totalCost = p.overview.totalCost ∧
    q.overview.duration = p.overview.duration ∧ q.accommodation = p.accommodation := by
  simp only [finalizeTrip] at h
  split at h
  · exact Except.noConfusion h
  · cases Except.ok.inj h
    exact ⟨rfl, rfl, rfl, rfl⟩

/-- planDay_ok: a successful day plan carries the formatted date, the
weather advice that `getAdvice` produced, and the activities generated by
`planActivities` from it. -/
theorem planDay_ok (dist : Location → Location → ℚ) (s : Store) (date : Int)
    (req : TripPlanRequest) (d : DailyPlan)
    (h : planDay dist s date req = .ok d) :
    d.date = timeFormatDate date ∧
    ∃ adv, getAdvice s date = some adv ∧ d.weather = some adv ∧
      d.activities = planActivities adv := by
  simp only [planDay] at h
  split at h
  · exact Except.noConfusion h
  · next adv heq =>
    cases Except.ok.inj h
    exact ⟨rfl, adv, heq, rfl, rfl⟩

/-- planDay_none: when `getAdvice` finds no forecast for the date, the Go
code dereferences a nil `*WeatherAdvice` inside `planActivities` and
panics. -/
theorem planDay_none (dist : Location → Location → ℚ) (s : Store) (date : Int)
    (req : TripPlanRequest) (h : getAdvice s date = none) :
    planDay dist s date req =
      .error (.runtimePanic ("invalid memory address or nil pointer dereference")) := by
  simp only [planDay, h]

/-- planDaysList_ok: a successful daily loop returns one plan per date, each
produced by `planDay` on the corresponding date. -/
theorem planDaysList_ok (dist : Location → Location → ℚ) (s : Store)
    (req : TripPlanRequest) (dates : List Int) :
    ∀ ps, planDaysList dist s req dates = .ok ps →
      ps.length = dates.length ∧
      ∀ i (hd : i < dates.length) (hp : i < ps.length),
        planDay dist s (dates.get ⟨i, hd⟩) req = .ok (ps.get ⟨i, hp⟩) := by
  induction dates with
  | nil =>
    intro ps h
    simp only [planDaysList] at h
    cases Except.ok.inj h
    exact ⟨rfl, fun i hd => absurd hd (Nat.not_lt_zero i)⟩
  | cons date dates ih =>
    intro ps h
    simp only [planDaysList] at h
    split at h
    · exact Except.noConfusion h
    · next p hp =>
      split at h
      · exact Except.noConfusion h
      · next ps0 hps =>
        cases Except.ok.inj h
        obtain ⟨hlen, hidx⟩ := ih ps0 hps
        refine ⟨by simp [hlen], ?_⟩
        intro i hd hp2
        cases i with
        | zero => exact hp
        | succ n =>
          exact hidx n (Nat.lt_of_succ_lt_succ hd) (Nat.lt_of_succ_lt_succ hp2)

/-- dateList_length: the daily loop visits exactly `n` dates. -/
theorem dateList_length (start : Int) (n : Nat) : (dateList start n).length = n := by
  unfold dateList
  rw [List.length_map, List.length_range]

/-- dateList_get: the i-th visited date is the start plus i whole days. -/
theorem dateList_get (start : Int) (n i : Nat) (hi : i < (dateList start n).length) :
    (dateList start n).get ⟨i, hi⟩ = start + 1440 * (i : Int) := by
  simp only [dateList, List.get_eq_getElem, List.getElem_map, List.getElem_range]

/-- planActivities_durations: the three generated blocks last
(180 or 120, 180, 90) minutes, the morning being 180 exactly when a
suitable activity or an outdoor option exists. -/
theorem planActivities_durations (adv : WeatherAdvice) :
    (planActivities adv).map Activity.duration =
      [if 0 < adv.suitable.length ∨ 0 < adv.outdoorOptions.length then 180 else 120,
       180, 90] := by
  simp only [planActivities]
  split_ifs <;> rfl

/-- Plan_ok_parts: a successful `Plan` call decomposes into a positive day
count, a successful daily loop over `dateList` and a successful finalize. -/
theorem Plan_ok_parts (dist : Location → Location → ℚ) (s : Store)
    (req : TripPlanRequest) (plan : TripPlan)
    (h : Plan dist s req = .ok plan) :
    1 ≤ Int.tdiv (req.endDate - req.startDate) 1440 ∧
    ∃ dailyPlans,
      planDaysList dist s req
        (dateList req.startDate (Int.tdiv (req.endDate - req.startDate) 1440).toNat)
        = .ok dailyPlans ∧
      finalizeTrip req
        { overview := { duration := Int.tdiv (req.endDate - req.startDate) 1440,
                        totalCost := 0, highlights := [] },
          accommodation := (hotelRecommend dist s (hotelReqOf req)).head?,
          dailyPlans := dailyPlans, tips := [] } = .ok plan := by
  simp only [Plan] at h
  split at h
  · exact Except.noConfusion h
  · next hdays =>
    split at h
    · exact Except.noConfusion h
    · next dailyPlans hps =>
      exact ⟨by omega, dailyPlans, hps, h⟩

/-! Claim theorems. -/

/-- C1 counterexample: with an affordable restaurant followed by an
over-budget one, the affordable one generates the single candidate, but the
candidate's stored restaurant reference — the go-1.21 aliased loop variable
— is the over-budget last restaurant, whose score is 0; so the returned
list does not contain only strictly-positive-score candidates. -/
theorem recommend_positive_cex :
    0 < scoreRestaurant r0 dreq0 ∧
    (restaurantRecommend dist0 storeTwo dreq0).map
        (fun rec => scoreRestaurant rec.restaurant dreq0) = [0] := by
  decide

/-- C1 amended: each returned candidate was generated by a nearby POI of
strictly positive score whose distance it carries, but its stored POI
reference aliases the shared go-1.21 loop variable and is the last
pre-filter POI (whose score may be zero); the list is ordered by the
comparator over those stored references — score descending, equal scores by
ascending distance, hence (all stored references being equal) effectively
by ascending distance — and is truncated to at most five entries. -/
theorem recommend_aliased_ranked_capped (dist : Location → Location → ℚ)
    (s : Store) (dreq : DiningRequest) (hreq : AccommodationRequest) :
    (∀ rec, rec ∈ restaurantRecommend dist s dreq →
       (findNearbyRestaurants dist s dreq.location dreq.distance).getLast? =
         some rec.restaurant ∧
       ∃ r ∈ findNearbyRestaurants dist s dreq.location dreq.distance,
         0 < scoreRestaurant r dreq ∧
         rec.distanceKm = dist dreq.location r.coordinates) ∧
    (restaurantRecommend dist s dreq).Pairwise (fun a b =>
       scoreRestaurant b.restaurant dreq < scoreRestaurant a.restaurant dreq ∨
       (scoreRestaurant a.restaurant dreq = scoreRestaurant b.restaurant dreq ∧
         a.distanceKm ≤ b.distanceKm)) ∧
    (restaurantRecommend dist s dreq).Pairwise
       (fun a b => a.distanceKm ≤ b.distanceKm) ∧
    (restaurantRecommend dist s dreq).length ≤ 5 ∧
    (∀ rec, rec ∈ hotelRecommend dist s hreq →
       (findHotelsByPriceRange s 0 hreq.budget).getLast? = some rec.hotel ∧
       ∃ hh ∈ findHotelsByPriceRange s 0 hreq.budget,
         dist hreq.location hh.coordinates ≤ hreq.distance ∧
         0 < scoreHotel dist hh hreq ∧
         rec.distanceKm = dist hreq.location hh.coordinates) ∧
    (hotelRecommend dist s hreq).Pairwise (fun a b =>
       scoreHotel dist b.hotel hreq < scoreHotel dist a.hotel hreq ∨
       (scoreHotel dist a.hotel hreq = scoreHotel dist b.hotel hreq ∧
         a.distanceKm ≤ b.distanceKm)) ∧
    (hotelRecommend dist s hreq).Pairwise
       (fun a b => a.distanceKm ≤ b.distanceKm) ∧
    (hotelRecommend dist s hreq).length ≤ 5 := by
  refine ⟨fun rec h => mem_restaurantRecommend dist s dreq rec h,
          sorted_restaurantRecommend dist s dreq, ?_,
          length_restaurantRecommend dist s dreq,
          fun rec h => mem_hotelRecommend dist s hreq rec h,
          sorted_hotelRecommend dist s hreq, ?_,
          length_hotelRecommend dist s hreq⟩
  · refine (sorted_restaurantRecommend dist s dreq).imp_of_mem ?_
    intro a b ha hb hr
    have he : a.restaurant = b.restaurant :=
      Option.some.inj (((mem_restaurantRecommend dist s dreq a ha).1).symm.trans
        ((mem_restaurantRecommend dist s dreq b hb).1))
    rcases hr with hlt | ⟨-, hle⟩
    · rw [he] at hlt
      exact absurd hlt (lt_irrefl _)
    · exact hle
  · refine (sorted_hotelRecommend dist s hreq).imp_of_mem ?_
    intro a b ha hb hr
    have he : a.hotel = b.hotel :=
      Option.some.inj (((mem_hotelRecommend dist s hreq a ha).1).symm.trans
        ((mem_hotelRecommend dist s hreq b hb).1))
    rcases hr with hlt | ⟨-, hle⟩
    · rw [he] at hlt
      exact absurd hlt (lt_irrefl _)
    · exact hle

/-- C1 amended witness: the two-restaurant fixture's single candidate stores
exactly the last nearby restaurant. -/
theorem recommend_aliased_ranked_capped_witness :
    (findNearbyRestaurants dist0 storeTwo dreq0.location dreq0.distance).getLast? =
      some ((restaurantRecommend dist0 storeTwo dreq0).head (by decide)).restaurant :=
  ((recommend_aliased_ranked_capped dist0 storeTwo dreq0 hreq0).1 _
    (List.head_mem _)).1

/-- C2 counterexample: the returned candidate of the two-restaurant fixture
reports an average price of 400 through its aliased restaurant reference,
exceeding the 150 per-person budget. -/
theorem dining_budget_cex :
    (restaurantRecommend dist0 storeTwo dreq0).map
        (fun rec =>
          (rec.restaurant.priceRange.min + rec.restaurant.priceRange.max) / 2)
      = [400] ∧
    dreq0.budget < 400 := by
  decide

/-- C2 amended: a restaurant whose average price exceeds the per-person
budget scores zero and generates no candidate; every returned candidate was
generated by a nearby restaurant of positive score whose average price is
within the budget and whose distance it carries — but the candidate's
stored restaurant reference aliases the go-1.21 loop variable (the last
nearby restaurant), which may exceed the budget. -/
theorem dining_budget_amended (dist : Location → Location → ℚ) (s : Store)
    (req : DiningRequest) :
    (∀ r : Restaurant,
       req.budget < (r.priceRange.min + r.priceRange.max) / 2 →
       scoreRestaurant r req = 0) ∧
    (∀ rec, rec ∈ restaurantRecommend dist s req →
       ∃ r ∈ findNearbyRestaurants dist s req.location req.distance,
         0 < scoreRestaurant r req ∧
         (r.priceRange.min + r.priceRange.max) / 2 ≤ req.budget ∧
         rec.distanceKm = dist req.location r.coordinates) := by
  have hzero : ∀ r : Restaurant,
      req.budget < (r.priceRange.min + r.priceRange.max) / 2 →
      scoreRestaurant r req = 0 := by
    intro r hgt
    simp only [scoreRestaurant]
    rw [if_pos hgt]
  refine ⟨hzero, ?_⟩
  intro rec h
  obtain ⟨-, r, hr, hs, hd⟩ := mem_restaurantRecommend dist s req rec h
  refine ⟨r, hr, hs, ?_, hd⟩
  by_contra hgt
  push_neg at hgt
  rw [hzero r hgt] at hs
  exact lt_irrefl 0 hs

/-- C2 amended witness: the generating restaurant of the single-restaurant
fixture's candidate is affordable and in budget. -/
theorem dining_budget_amended_witness :
    ∃ r ∈ findNearbyRestaurants dist0 storeFood dreq0.location dreq0.distance,
      0 < scoreRestaurant r dreq0 ∧
      (r.priceRange.min + r.priceRange.max) / 2 ≤ dreq0.budget ∧
      ((restaurantRecommend dist0 storeFood dreq0).head (by decide)).distanceKm =
        dist0 dreq0.location r.coordinates :=
  (dining_budget_amended dist0 storeFood dreq0).2 _ (List.head_mem _)

/-- C3 counterexample: the fixture hotel has an affordable room (50 ≤ 100)
and sits within the radius, yet it fails the budget filter — it is dropped
by `FindHotelsByPriceRange(0, budget)` because its `PriceRange.Max = 1000`
exceeds the budget, and the recommendation list is empty. -/
theorem hotel_budget_filter_cex :
    hasAffordableRoom hC3 hreqC3.budget = true ∧
    dist0 hreqC3.location hC3.coordinates ≤ hreqC3.distance ∧
    hC3 ∈ storeC3.hotels ∧
    hC3 ∉ findHotelsByPriceRange storeC3 0 hreqC3.budget ∧
    hotelRecommend dist0 storeC3 hreqC3 = [] := by
  decide

/-- C3 amended: a hotel passes the budget-related filtering of the hotel
scorer iff it is in the store, its whole price range lies within
`[0, budget]`, and it has at least one room priced at or below the
budget. -/
theorem hotel_budget_filter_amended (s : Store) (b : ℚ) (h : Hotel) :
    (h ∈ findHotelsByPriceRange s 0 b ∧ hasAffordableRoom h b = true) ↔
    (h ∈ s.hotels ∧ 0 ≤ h.priceRange.min ∧ h.priceRange.max ≤ b ∧
      ∃ room ∈ h.rooms, room.price ≤ b) := by
  simp only [findHotelsByPriceRange, hasAffordableRoom, List.mem_filter,
    List.any_eq_true, decide_eq_true_eq]
  tauto

/-- C3 amended witness: the in-band fixture hotel passes both conditions. -/
theorem hotel_budget_filter_amended_witness :
    h1 ∈ storeC1.hotels ∧ 0 ≤ h1.priceRange.min ∧ h1.priceRange.max ≤ (800 : ℚ) ∧
    ∃ room ∈ h1.rooms, room.price ≤ (800 : ℚ) :=
  (hotel_budget_filter_amended storeC1 800 h1).mp (by decide)

/-- C4 counterexample: when the attractions dataset fails to load, `LoadAll`
reports the dataset error, but the districts dataset of the prior snapshot
has already been overwritten. -/
theorem loadAll_partial_update_cex :
    (loadAll loaderFail cacheBefore).2 =
      some ("failed to read file tourism/attractions.json") ∧
    (loadAll loaderFail cacheBefore).1.districts ≠ cacheBefore.districts := by
  decide

/-- C4 amended: `LoadAll` fails at the first failing dataset in load order
(districts, attractions, restaurants, hotels, weather); datasets before the
failing one have already been replaced in the cache, the failing one and
later ones keep their prior values, and on full success every dataset is
replaced. -/
theorem loadAll_prefix_overwrite (l : DataLoader) (c : Store) :
    (∀ e, l.districts = .error e → loadAll l c = (c, some e)) ∧
    (∀ ds e, l.districts = .ok ds → l.attractions = .error e →
       loadAll l c = ({ c with districts := ds }, some e)) ∧
    (∀ ds atts e, l.districts = .ok ds → l.attractions = .ok atts →
       l.restaurants = .error e →
       loadAll l c = ({ c with districts := ds, attractions := atts }, some e)) ∧
    (∀ ds atts rs e, l.districts = .ok ds → l.attractions = .ok atts →
       l.restaurants = .ok rs → l.hotels = .error e →
       loadAll l c =
         ({ c with districts := ds, attractions := atts, restaurants := rs },
          some e)) ∧
    (∀ ds atts rs hs e, l.districts = .ok ds → l.attractions = .ok atts →
       l.restaurants = .ok rs → l.hotels = .ok hs → l.weather = .error e →
       loadAll l c =
         ({ c with
            districts := ds, attractions := atts, restaurants := rs,
            hotels := hs }, some e)) ∧
    (∀ ds atts rs hs w, l.districts = .ok ds → l.attractions = .ok atts →
       l.restaurants = .ok rs → l.hotels = .ok hs → l.weather = .ok w →
       loadAll l c =
         ({ districts := ds, attractions := atts, restaurants := rs,
            hotels := hs, weather := some w }, none)) := by
  refine ⟨?_, ?_, ?_, ?_, ?_, ?_⟩
  · intro e h1
    simp [loadAll, h1]
  · intro ds e h1 h2
    simp [loadAll, h1, h2]
  · intro ds atts e h1 h2 h3
    simp [loadAll, h1, h2, h3]
  · intro ds atts rs e h1 h2 h3 h4
    simp [loadAll, h1, h2, h3, h4]
  · intro ds atts rs hs e h1 h2 h3 h4 h5
    simp [loadAll, h1, h2, h3, h4, h5]
  · intro ds atts rs hs w h1 h2 h3 h4 h5
    simp [loadAll, h1, h2, h3, h4, h5]

/-- C4 amended witness: the failing fixture reload overwrites the districts
and reports the attractions error. -/
theorem loadAll_prefix_overwrite_witness :
    loadAll loaderFail cacheBefore =
      ({ cacheBefore with districts := [d1] },
       some ("failed to read file tourism/attractions.json")) :=
  (loadAll_prefix_overwrite loaderFail cacheBefore).2.1 [d1] _ rfl rfl

/-- C5 counterexample: a request with a negative hotel budget — which the
validator would reject — is accepted by `Plan`, which returns a trip plan
and no validation error. -/
theorem plan_skips_validation_cex :
    reqBadBudget.budget.hotel ≤ 0 ∧
    validateRequest reqBadBudget ≠ none ∧
    isOkPlan (Plan dist0 storeW reqBadBudget) = true := by
  decide

/-- C5 amended: `Plan` itself rejects only an empty date span; the field
checks of the claim (non-positive budgets, non-positive party size, zero
coordinates, zero or inverted dates) are implemented by the separate
`CoordinatorAgent.validateRequest`, which `Plan` never invokes. -/
theorem plan_validation_split :
    (∀ (dist : Location → Location → ℚ) (s : Store) (req : TripPlanRequest),
       Int.tdiv (req.endDate - req.startDate) 1440 < 1 →
       Plan dist s req = .error (.errMsg ("invalid date range"))) ∧
    (∀ r : TripPlanRequest,
       (r.budget.total ≤ 0 ∨ r.budget.hotel ≤ 0 ∨ r.budget.food ≤ 0 ∨
        r.budget.activity ≤ 0 ∨ r.partySize ≤ 0 ∨
        (r.location.latitude = 0 ∧ r.location.longitude = 0) ∨
        r.startDate = 0 ∨ r.endDate = 0 ∨ r.endDate < r.startDate) →
       validateRequest r ≠ none) := by
  constructor
  · intro dist s req hlt
    simp only [Plan]
    rw [if_pos hlt]
  · intro r hbad
    unfold validateRequest
    split_ifs with h1 h2 h3 h4 h5 h6 h7 h8 h9
    · exact fun hx => Option.noConfusion hx
    · exact fun hx => Option.noConfusion hx
    · exact fun hx => Option.noConfusion hx
    · exact fun hx => Option.noConfusion hx
    · exact fun hx => Option.noConfusion hx
    · exact fun hx => Option.noConfusion hx
    · exact fun hx => Option.noConfusion hx
    · exact fun hx => Option.noConfusion hx
    · exact fun hx => Option.noConfusion hx
    · rcases hbad with h | h | h | h | h | h | h | h | h
      · exact absurd h h5
      · exact absurd h h6
      · exact absurd h h7
      · exact absurd h h8
      · exact absurd h h9
      · exact absurd h h4
      · exact absurd (Or.inl h) h1
      · exact absurd (Or.inr h) h1
      · exact absurd h h2

/-- C5 amended witness: the validator rejects the negative-hotel-budget
fixture request (while `Plan` accepted it above). -/
theorem plan_validation_split_witness :
    validateRequest reqBadBudget ≠ none :=
  plan_validation_split.2 reqBadBudget (Or.inr (Or.inl (by decide)))

/-- C6: with a non-empty forecast dataset that has no entry for the
requested day, `GetAdvice` reports no error and no advice, and `Plan`
crashes with a nil-pointer dereference inside `planActivities` instead of
producing the day without a weather section. -/
theorem plan_crashes_on_missing_forecast :
    getAdvice storeNoW 0 = none ∧
    Plan dist0 storeNoW reqGood =
      .error (.runtimePanic ("invalid memory address or nil pointer dereference")) :=
  ⟨rfl, rfl⟩

/-- C7 counterexample: on a rainy fixture day, `Plan` succeeds but the
morning block of the produced daily plan lasts 120 minutes, not the 180
claimed for every block. -/
theorem plan_morning_block_cex :
    isOkPlan (Plan dist0 storeRainy reqGood) = true ∧
    firstActivityDuration (Plan dist0 storeRainy reqGood) = 120 := by
  decide

/-- C7 amended: a successful `Plan` has exactly one `DailyPlan` per whole
day, dated start-plus-i-days in ascending order, and each day has exactly
three activity blocks of durations (180 or 120, 180, 90) minutes — the
morning block is 180 minutes exactly when the day's weather advice offers a
suitable activity or an outdoor option, and 120 minutes (indoor) otherwise. -/
theorem plan_daily_structure (dist : Location → Location → ℚ) (s : Store)
    (req : TripPlanRequest) (plan : TripPlan)
    (h : Plan dist s req = .ok plan) :
    plan.dailyPlans.length = (Int.tdiv (req.endDate - req.startDate) 1440).toNat ∧
    ∀ i (hi : i < plan.dailyPlans.length),
      (plan.dailyPlans.get ⟨i, hi⟩).date =
        timeFormatDate (req.startDate + 1440 * (i : Int)) ∧
      ∃ adv, (plan.dailyPlans.get ⟨i, hi⟩).weather = some adv ∧
        (plan.dailyPlans.get ⟨i, hi⟩).activities.map Activity.duration =
          [if 0 < adv.suitable.length ∨ 0 < adv.outdoorOptions.length then 180
           else 120, 180, 90] := by
  obtain ⟨hdays, dailyPlans, hps, hfin⟩ := Plan_ok_parts dist s req plan h
  obtain ⟨hdp, -, -, -⟩ := finalizeTrip_ok req _ plan hfin
  obtain ⟨hlen, hidx⟩ := planDaysList_ok dist s req _ dailyPlans hps
  have hlen2 : plan.dailyPlans.length =
      (Int.tdiv (req.endDate - req.startDate) 1440).toNat := by
    rw [hdp]
    exact hlen.trans (dateList_length _ _)
  refine ⟨hlen2, ?_⟩
  rw [hdp]
  intro i hi
  have hd : i < (dateList req.startDate
      (Int.tdiv (req.endDate - req.startDate) 1440).toNat).length := by
    rw [dateList_length]
    rw [hlen, dateList_length] at hi
    exact hi
  have hpd := hidx i hd hi
  obtain ⟨hdate, adv, hadv, hw, hact⟩ := planDay_ok dist s _ req _ hpd
  refine ⟨?_, adv, hw, ?_⟩
  · rw [hdate, dateList_get]
  · rw [hact, planActivities_durations]

/-- C7 amended witness: the one-day fixture plan has exactly one daily
plan. -/
theorem plan_daily_structure_witness :
    (okPlan (Plan dist0 storeW reqGood)).dailyPlans.length =
      (Int.tdiv (reqGood.endDate - reqGood.startDate) 1440).toNat :=
  (plan_daily_structure dist0 storeW reqGood (okPlan (Plan dist0 storeW reqGood)) rfl).1

/-- C8 counterexample: on the fixture with one affordable restaurant, the
plan selects a dining candidate of average price 50, yet the overview total
cost is 0, not the sum of selected candidate costs. -/
theorem total_cost_not_summed_cex :
    totalCostOf (Plan dist0 storeFood reqGood) = 0 ∧
    firstDiningAvgPrice (Plan dist0 storeFood reqGood) = 50 := by
  decide

/-- C8 amended: `finalizeTrip` performs no cost aggregation; the overview
total cost of every successfully produced trip plan is the zero it was
initialised with, whatever candidates were selected. -/
theorem total_cost_always_zero (dist : Location → Location → ℚ) (s : Store)
    (req : TripPlanRequest) (plan : TripPlan)
    (h : Plan dist s req = .ok plan) :
    plan.overview.totalCost = 0 := by
  obtain ⟨-, dailyPlans, -, hfin⟩ := Plan_ok_parts dist s req plan h
  obtain ⟨-, hc, -, -⟩ := finalizeTrip_ok req _ plan hfin
  exact hc

/-- C8 amended witness: the fixture plan's total cost is zero. -/
theorem total_cost_always_zero_witness :
    (okPlan (Plan dist0 storeFood reqGood)).overview.totalCost = 0 :=
  total_cost_always_zero dist0 storeFood reqGood (okPlan (Plan dist0 storeFood reqGood)) rfl

/-- C9: the weather rule table has no early exit — a forecast that is both
hot and windy collects precautions from both rules; the indoor options are
never empty; and the outdoor options are non-empty whenever none of the
rain, wind and poor-air rules fired. -/
theorem weather_rules_accumulate (f : DailyForecast) :
    ((isHotF f = true ∧ isWindyF f = true) →
       ("防暑降温" ∈ (generateActivityRecommendations f { weather := some f }).precautions ∧
        "注意防风" ∈ (generateActivityRecommendations f { weather := some f }).precautions)) ∧
    (generateActivityRecommendations f { weather := some f }).indoorOptions ≠ [] ∧
    ((isRainyF f = false ∧ isWindyF f = false ∧ isPoorAirF f = false) →
       (generateActivityRecommendations f { weather := some f }).outdoorOptions ≠ []) := by
  cases hr : isRainyF f <;> cases hs : isSunnyF f <;> cases hh : isHotF f <;>
    cases hc : isColdF f <;> cases hw : isWindyF f <;> cases hp : isPoorAirF f <;>
      simp [generateActivityRecommendations, hr, hs, hh, hc, hw, hp]

/-- C9 witness: on the hot-and-windy fixture forecast, both rules'
precautions are present. -/
theorem weather_rules_accumulate_witness :
    "防暑降温" ∈ (generateActivityRecommendations fHotWindy
        { weather := some fHotWindy }).precautions ∧
    "注意防风" ∈ (generateActivityRecommendations fHotWindy
        { weather := some fHotWindy }).precautions :=
  (weather_rules_accumulate fHotWindy).1 (by decide)

/-- C10: when none of the rain, wind and poor-air rules fire, the outdoor
options are non-empty even when the heat rule (which flags prolonged
outdoor activity as unsuitable) or the cold rule fires: in the hot case —
and in the cold case with no clear-sky rule — the fixed three-item fallback
outdoor list is supplied. -/
theorem outdoor_fallback (f : DailyForecast)
    (hr : isRainyF f = false) (hw : isWindyF f = false)
    (hp : isPoorAirF f = false) :
    (generateActivityRecommendations f { weather := some f }).outdoorOptions ≠ [] ∧
    (isHotF f = true →
       (generateActivityRecommendations f { weather := some f }).outdoorOptions =
         ["西湖景区游览", "灵隐寺参观", "城市观光"]) ∧
    ((isColdF f = true ∧ isSunnyF f = false) →
       (generateActivityRecommendations f { weather := some f }).outdoorOptions =
         ["西湖景区游览", "灵隐寺参观", "城市观光"]) := by
  cases hs : isSunnyF f <;> cases hh : isHotF f <;> cases hc : isColdF f <;>
    simp [generateActivityRecommendations, hr, hs, hh, hc, hw, hp]

/-- C10 witness: the hot-but-calm fixture forecast receives exactly the
three-item fallback outdoor list. -/
theorem outdoor_fallback_witness :
    (generateActivityRecommendations fHotCalm
        { weather := some fHotCalm }).outdoorOptions =
      ["西湖景区游览", "灵隐寺参观", "城市观光"] :=
  (outdoor_fallback fHotCalm (by decide) (by decide) (by decide)).2.1 (by decide)

end DeepLLM
